import Mathlib

/-!
Verification development for the elysia-jwt plugin.

The repository packs several variants of the plugin:
  * `src/unnamed/part_000` — the JWKS-capable variant (namespace `P0` below):
    local secret and/or remote key set, symmetric/asymmetric separation,
    key-existence semantics for per-call time-claim overrides.
  * `src/src/index.ts`, first file (namespace `MainA` below): plain
    sign/verify variant whose time-claim overrides are keyed on the value
    being defined, and whose iat guard is an OR of two inequality tests.
  * `src/unnamed/part_001`, second file (namespace `V2` below): the variant
    with the multi-candidate JWKS retry loop.

JavaScript objects are modelled as association lists where the LAST binding
of a key wins (object spread semantics); a binding whose value is `none`
models a property explicitly set to `undefined` (present for `in` checks
and spreads, absent from the serialized JSON).  The external jose
cryptographic provider is modelled by `jwtVerifyCore`: a token records the
key material that signed it, and signature verification succeeds exactly
when the verification key equals that material.
-/

/-- JSON-compatible claim values (the shapes exercised by the plugin). -/
inductive ClaimVal where
  | str (s : String)
  | num (n : Int)
  | boolV (b : Bool)
  | nullV
  deriving DecidableEq, Repr

/-- A JavaScript object: insertion-ordered bindings, last binding wins.
A `none` value is a property explicitly set to `undefined`. -/
abbrev Obj := List (String × Option ClaimVal)

/-- Last binding of key `k` in `o` (`some none` = present but undefined). -/
def findLast : Obj → String → Option (Option ClaimVal)
  | [], _ => none
  | e :: rest, k =>
    match findLast rest k with
    | some r => some r
    | none => if e.1 = k then some e.2 else none

/-- Property read as JSON serialization sees it: `undefined` and missing
both read as `none`. -/
def getObj (o : Obj) (k : String) : Option ClaimVal :=
  match findLast o k with
  | some (some v) => some v
  | _ => none

/-- Overwrite property `k` with a defined value (jose setter semantics). -/
def oset (o : Obj) (k : String) (v : ClaimVal) : Obj := o ++ [(k, some v)]

/-- JavaScript nullish coalescing `a ?? b` on property reads. -/
def jsCoalesce (a b : Option ClaimVal) : Option ClaimVal :=
  match a with
  | some v => some v
  | none => b

/-- State of a property in a destructured sign input: key absent, key
present with value `undefined`, or key present with a value. -/
inductive JsField (α : Type) where
  | missing
  | undef
  | val (a : α)
  deriving DecidableEq, Repr

/-- The JavaScript `'k' in obj` test. -/
def JsField.inObj {α : Type} : JsField α → Bool
  | .missing => false
  | _ => true

/-- The value read off the property (`undefined` and missing read alike). -/
def JsField.value {α : Type} : JsField α → Option α
  | .val a => some a
  | _ => none

/-- Flexible time input for exp/nbf: an absolute Unix timestamp in seconds,
or a duration string (recorded with the offset in seconds that the external
jose duration parser assigns to it). -/
inductive TimeIn where
  | absT (n : Int)
  | relT (raw : String) (offset : Int)
  deriving DecidableEq, Repr

/-- jose normalization of a time input at signing time `now`. -/
def resolveTime (now : Int) : TimeIn → Int
  | .absT n => n
  | .relT _ off => now + off

/-- Flexible iat input: a boolean control flag or a concrete time value. -/
inductive IatIn where
  | boolIat (b : Bool)
  | timeIat (t : TimeIn)
  deriving DecidableEq, Repr

/-- Concrete key material handed to the jose sign/verify calls. -/
inductive KeyMat where
  | encoded (s : String)
  | passthrough (id : Nat)
  | importedJWK (id : Nat) (alg : String)
  deriving DecidableEq, Repr

/-- The configured secret: a string, a Uint8Array/CryptoKey/KeyObject
(opaque ids), or a JWK-shaped object (an object with a kty property). -/
inductive SecretVal where
  | sstr (s : String)
  | sbytes (id : Nat)
  | skey (id : Nat)
  | sjwk (id : Nat)
  deriving DecidableEq, Repr

/-- JavaScript truthiness of the secret (the empty string is falsy). -/
def SecretVal.truthy : SecretVal → Bool
  | .sstr s => if s = "" then false else true
  | _ => true

/-- jose error taxonomy relevant to the plugin. -/
inductive JoseError where
  | malformedToken
  | invalidKeyInput
  | algNotAllowed
  | jwsSignatureVerificationFailed
  | expiredClaim
  | notYetValidClaim
  | invalidClaimValue
  | jwksMultipleMatchingKeys (keys : List KeyMat)
  | jwksNoMatchingKey
  deriving DecidableEq, Repr

/-- JWTVerifyOptions: an optional algorithms allow-list plus a stand-in for
the remaining option fields carried through an object spread. -/
structure VerifyOptions where
  algorithms : Option (List String)
  otherOpts : Option Nat
  deriving DecidableEq, Repr

/-- A well-formed compact JWS, as decoded: the declared algorithm, the
claims payload, and the key material that produced the signature. -/
structure Token where
  alg : String
  payload : Obj
  sigKey : KeyMat
  deriving DecidableEq, Repr

/-- A token string handed to verify: empty, unparseable, or well formed. -/
inductive TokenStr where
  | emptyStr
  | malformedStr
  | wellFormed (t : Token)
  deriving DecidableEq, Repr

/-- Plugin configuration after option destructuring: key sources, schema
validator, and the configured default header fields and default claims. -/
structure JwtConfig where
  secret : Option SecretVal
  jwks : Option (Token → Except JoseError KeyMat)
  validator : Option (Obj → Bool)
  dAlg : Option String
  dTyp : Option String
  dCty : Option String
  dEnc : Option String
  dKid : Option String
  dJku : Option String
  dJwk : Option Nat
  dX5c : Option (List String)
  dX5t : Option String
  dX5u : Option String
  dB64 : Option Bool
  dCrit : Option (List String)
  dAud : Option ClaimVal
  dIss : Option ClaimVal
  dJti : Option ClaimVal
  dSub : Option ClaimVal
  dNbf : Option TimeIn
  dExp : Option TimeIn
  dIat : Option IatIn

/-- Destructured input of a sign call: the three time claims (with their
key-presence state) and the remaining properties. -/
structure SignInput where
  nbf : JsField TimeIn
  exp : JsField TimeIn
  iat : JsField IatIn
  rest : Obj

/-- jose algorithm allow-list check inside jwtVerify. -/
def checkAlgAllowed (t : Token) (o : Option VerifyOptions) :
    Except JoseError Unit :=
  match o with
  | none => .ok ()
  | some o =>
    match o.algorithms with
    | none => .ok ()
    | some algs => if t.alg ∈ algs then .ok () else .error .algNotAllowed

/-- jose exp claim validation: fails when the token has expired. -/
def checkExp (p : Obj) (now : Int) : Except JoseError Unit :=
  match getObj p "exp" with
  | none => .ok ()
  | some (.num e) => if e ≤ now then .error .expiredClaim else .ok ()
  | some _ => .error .invalidClaimValue

/-- jose nbf claim validation: fails when the token is not yet valid. -/
def checkNbf (p : Obj) (now : Int) : Except JoseError Unit :=
  match getObj p "nbf" with
  | none => .ok ()
  | some (.num b) => if now < b then .error .notYetValidClaim else .ok ()
  | some _ => .error .invalidClaimValue

/-- Model of jose jwtVerify against one concrete key: rejects an invalid
key input, enforces the algorithm allow-list, checks the signature (valid
exactly when the key equals the signing key material), then validates the
time claims, and finally exposes the payload. -/
def jwtVerifyCore (t : Token) (k : Option KeyMat) (o : Option VerifyOptions)
    (now : Int) : Except JoseError Obj :=
  match k with
  | none => .error .invalidKeyInput
  | some k =>
    match checkAlgAllowed t o with
    | .error e => .error e
    | .ok _ =>
      if t.sigKey ≠ k then .error .jwsSignatureVerificationFailed
      else
        match checkExp t.payload now with
        | .error e => .error e
        | .ok _ =>
          match checkNbf t.payload now with
          | .error e => .error e
          | .ok _ => .ok t.payload

/-- The alg.startsWith("HS") family discrimination of the source, stated
on the character list so it computes in the kernel (algorithm names are
ASCII). -/
def isSymmetricAlg (s : String) : Bool :=
  match s.data with
  | 'H' :: 'S' :: _ => true
  | _ => false

/-- ASYMMETRIC_VERIFICATION_ALGS from src/unnamed/part_000. -/
def asymmetricVerificationAlgs : List String :=
  ["RS256", "RS384", "RS512",
   "PS256", "PS384", "PS512",
   "ES256", "ES384", "ES512",
   "EdDSA"]

/-- The verify options handed to jwtVerify when delegating to the key-set
resolver (src/unnamed/part_000, lines 309-313): absent options become an
algorithms allow-list, options without an algorithms restriction get the
allow-list spliced in, options with a restriction pass through unchanged. -/
def jwksVerifyOptions (o : Option VerifyOptions) : VerifyOptions :=
  match o with
  | none => ⟨some asymmetricVerificationAlgs, none⟩
  | some o =>
    match o.algorithms with
    | none => ⟨some asymmetricVerificationAlgs, o.otherOpts⟩
    | some _ => o

/-- Model of jose jwtVerify against a key-set resolver function: resolve a
key from the token header, then verify with it. -/
def jwtVerifyJwks (t : Token) (resolver : Token → Except JoseError KeyMat)
    (o : VerifyOptions) (now : Int) : Except JoseError Obj :=
  match resolver t with
  | .error e => .error e
  | .ok k => jwtVerifyCore t (some k) (some o) now

/-- The emitted JWS protected header: alg and typ always present, the rest
omitted (`none`) when supplied nowhere. -/
structure JWSHeaderOut where
  alg : String
  b64 : Option Bool
  crit : Option (List String)
  cty : Option String
  jku : Option String
  jwk : Option Nat
  kid : Option String
  typ : String
  x5c : Option (List String)
  x5t : Option String
  x5u : Option String
  deriving DecidableEq, Repr

/-- The JWTHeader object of the sign paths (src/src/index.ts lines 227-239
and src/unnamed/part_000 lines 366-378): alg falls back to HS256, typ to
JWT, every other field is taken from the configured defaults as-is. -/
def buildJWSHeader (cfg : JwtConfig) : JWSHeaderOut :=
  ⟨cfg.dAlg.getD "HS256", cfg.dB64, cfg.dCrit, cfg.dCty, cfg.dJku,
   cfg.dJwk, cfg.dKid, cfg.dTyp.getD "JWT", cfg.dX5c, cfg.dX5t, cfg.dX5u⟩

/-- The emitted JWE protected header: alg, enc, cty and typ always present,
the rest omitted when supplied nowhere. -/
structure JWEHeaderOut where
  alg : String
  enc : String
  crit : Option (List String)
  cty : String
  jku : Option String
  jwk : Option Nat
  kid : Option String
  typ : String
  x5c : Option (List String)
  x5t : Option String
  x5u : Option String
  deriving DecidableEq, Repr

/-- The JWTHeader object of the encrypt path (src/src/index.ts lines
770-782): alg falls back to RSA-OAEP-256, enc to A256GCM, cty and typ to
JWT, every other field is taken from the configured defaults as-is. -/
def buildJWEHeader (cfg : JwtConfig) : JWEHeaderOut :=
  ⟨cfg.dAlg.getD "RSA-OAEP-256", cfg.dEnc.getD "A256GCM", cfg.dCrit,
   cfg.dCty.getD "JWT", cfg.dJku, cfg.dJwk, cfg.dKid,
   cfg.dTyp.getD "JWT", cfg.dX5c, cfg.dX5t, cfg.dX5u⟩

/-- The explicit standard-claim merge at the head of the JWTPayload object:
aud/iss/jti/sub read from the per-call data with nullish fallback to the
configured defaults. -/
def stdClaims (cfg : JwtConfig) (rest : Obj) : Obj :=
  [("aud", jsCoalesce (getObj rest "aud") cfg.dAud),
   ("iss", jsCoalesce (getObj rest "iss") cfg.dIss),
   ("jti", jsCoalesce (getObj rest "jti") cfg.dJti),
   ("sub", jsCoalesce (getObj rest "sub") cfg.dSub)]

namespace P0

/-- The module-level key of src/unnamed/part_000 (lines 250-257): falsy
secrets and JWK-shaped objects yield no local key, string secrets are
TextEncoder-encoded, other key material passes through. -/
def key (cfg : JwtConfig) : Option KeyMat :=
  match cfg.secret with
  | none => none
  | some s =>
    if s.truthy = false then none
    else
      match s with
      | .sjwk _ => none
      | .sstr str => some (.encoded str)
      | .sbytes id => some (.passthrough id)
      | .skey id => some (.passthrough id)

/-- getKeyForAlg of src/unnamed/part_000 (lines 246-248): importJWK on the
configured secret; only JWK-shaped secrets import successfully. -/
def getKeyForAlg (cfg : JwtConfig) (alg : String) : Option KeyMat :=
  match cfg.secret with
  | some (.sjwk id) => some (.importedJWK id alg)
  | _ => none

/-- The claims payload produced by sign in src/unnamed/part_000 (lines
333-461): standard-claim merge plus the spread of the non-time data, then
the time claims with key-existence precedence — a per-call key (even one
holding undefined) overrides the configured default; iat defaults to the
include flag when unset everywhere. -/
def signPayload (cfg : JwtConfig) (si : SignInput) (now : Int) : Obj :=
  let p0 := stdClaims cfg si.rest ++ si.rest
  let setNbf := if si.nbf.inObj then si.nbf.value else cfg.dNbf
  let p1 :=
    match setNbf with
    | some tv => oset p0 "nbf" (.num (resolveTime now tv))
    | none => p0
  let setExp := if si.exp.inObj then si.exp.value else cfg.dExp
  let p2 :=
    match setExp with
    | some tv => oset p1 "exp" (.num (resolveTime now tv))
    | none => p1
  let setIat :=
    if si.iat.inObj then si.iat.value else some (cfg.dIat.getD (.boolIat true))
  match setIat with
  | some (.boolIat true) => oset p2 "iat" (.num now)
  | some (.timeIat tv) => oset p2 "iat" (.num (resolveTime now tv))
  | _ => p2

/-- sign of src/unnamed/part_000: emits a token signed with the local key,
falling back to the imported JWK; `none` when no key material resolves. -/
def sign (cfg : JwtConfig) (si : SignInput) (now : Int) : Option Token :=
  let algv := (buildJWSHeader cfg).alg
  match key cfg with
  | some k => some ⟨algv, signPayload cfg si now, k⟩
  | none =>
    match getKeyForAlg cfg algv with
    | some k => some ⟨algv, signPayload cfg si now, k⟩
    | none => none

/-- verify of src/unnamed/part_000 (lines 291-329): falsy input fails;
the protected header is decoded to discriminate the algorithm family;
symmetric algorithms with only a key-set resolver fail; asymmetric
algorithms prefer the resolver (under the constrained options), everything
else uses the local key; every jose error and every schema violation
collapses to `none`. -/
def verify (cfg : JwtConfig) (jwtIn : Option TokenStr)
    (options : Option VerifyOptions) (now : Int) : Option Obj :=
  match jwtIn with
  | none => none
  | some .emptyStr => none
  | some .malformedStr => none
  | some (.wellFormed t) =>
    let isSymmetric := isSymmetricAlg t.alg
    let asymmetricOnly := cfg.jwks.isSome && (key cfg).isNone
    if isSymmetric && asymmetricOnly then none
    else
      let result :=
        match cfg.jwks with
        | some resolver =>
          if isSymmetric then jwtVerifyCore t (key cfg) options now
          else jwtVerifyJwks t resolver (jwksVerifyOptions options) now
        | none => jwtVerifyCore t (key cfg) options now
      match result with
      | .error _ => none
      | .ok data =>
        match cfg.validator with
        | none => some data
        | some check => if check data then some data else none

/-- Truthiness of the configured secret option. -/
def secretTruthy (cfg : JwtConfig) : Bool :=
  match cfg.secret with
  | none => false
  | some s => s.truthy

/-- The construction-time guard of src/unnamed/part_000 (line 244). -/
def construct (cfg : JwtConfig) : Except String Unit :=
  if !secretTruthy cfg && cfg.jwks.isNone then
    .error "Either \"secret\" or \"jwks\" must be provided"
  else .ok ()

/-- Whether the decoration receives a sign method (line 332: only when the
secret is truthy). -/
def signAvailable (cfg : JwtConfig) : Bool := secretTruthy cfg

end P0

namespace MainA

/-- The raw value a time input contributes to the payload object spread
(before any setter normalizes it). -/
def rawTime : TimeIn → ClaimVal
  | .absT n => .num n
  | .relT raw _ => .str raw

/-- The raw value an iat input contributes to the payload object spread. -/
def rawIat : IatIn → ClaimVal
  | .boolIat b => .boolV b
  | .timeIat t => rawTime t

/-- Bindings a property contributes to an object spread: nothing when the
key is absent, an undefined binding when explicitly undefined. -/
def fieldBinding {α : Type} (k : String) (enc : α → ClaimVal) :
    JsField α → Obj
  | .missing => []
  | .undef => [(k, none)]
  | .val a => [(k, some (enc a))]

/-- The claims payload produced by sign in the first file of
src/src/index.ts (lines 196-313): the input is NOT destructured, so the
spread carries the raw time claims too; nbf and exp are set when the
per-call value or the default is defined (value-definedness, not key
existence); iat is set to the current time unless both the default and the
per-call value are the boolean false. -/
def signPayload (cfg : JwtConfig) (si : SignInput) (now : Int) : Obj :=
  let spreadData := si.rest
    ++ fieldBinding "nbf" rawTime si.nbf
    ++ fieldBinding "exp" rawTime si.exp
    ++ fieldBinding "iat" rawIat si.iat
  let p0 := stdClaims cfg si.rest ++ spreadData
  let p1 :=
    match si.nbf.value, cfg.dNbf with
    | some tv, _ => oset p0 "nbf" (.num (resolveTime now tv))
    | none, some tv => oset p0 "nbf" (.num (resolveTime now tv))
    | none, none => p0
  let p2 :=
    match si.exp.value, cfg.dExp with
    | some tv, _ => oset p1 "exp" (.num (resolveTime now tv))
    | none, some tv => oset p1 "exp" (.num (resolveTime now tv))
    | none, none => p1
  if cfg.dIat = some (.boolIat false) ∧ si.iat.value = some (.boolIat false)
  then p2
  else oset p2 "iat" (.num now)

end MainA

namespace V2

/-- The candidate-key loop of the JWKS-retry variant (second file of
src/unnamed/part_001, lines 391-404): try each key in order; a
signature-verification failure moves to the next candidate, any other
error is rethrown, and an exhausted list rethrows the signature failure. -/
def tryCandidates (t : Token) (o : Option VerifyOptions) (now : Int) :
    List KeyMat → Except JoseError Obj
  | [] => .error .jwsSignatureVerificationFailed
  | k :: ks =>
    match jwtVerifyCore t (some k) o now with
    | .ok p => .ok p
    | .error .jwsSignatureVerificationFailed => tryCandidates t o now ks
    | .error e => .error e

/-- The catch wrapper around the primary verification call (lines 386-408):
only the multiple-matching-keys error triggers the candidate loop, every
other outcome passes through. -/
def verifyWithRetry (primary : Except JoseError Obj) (t : Token)
    (o : Option VerifyOptions) (now : Int) : Except JoseError Obj :=
  match primary with
  | .error (.jwksMultipleMatchingKeys ks) => tryCandidates t o now ks
  | r => r

end V2

/-- Whether a configured default exp still admits verification at
`verifyTime` for a token signed at `signTime`. -/
def expStillValid (d : Option TimeIn) (signTime verifyTime : Int) : Bool :=
  match d with
  | none => true
  | some tv => decide (verifyTime < resolveTime signTime tv)

/-- The iat claim value the spec assigns to a resolved iat input. -/
def iatClaimValue (d : Option IatIn) (now : Int) : Option ClaimVal :=
  match d.getD (.boolIat true) with
  | .boolIat true => some (.num now)
  | .boolIat false => none
  | .timeIat tv => some (.num (resolveTime now tv))

/-- Whether the caller supplied no algorithms restriction in its options. -/
def noAlgRestriction : Option VerifyOptions → Bool
  | none => true
  | some o => o.algorithms.isNone

/-- A configuration with every option left unset. -/
def emptyCfg : JwtConfig :=
  ⟨none, none, none, none, none, none, none, none, none, none, none,
   none, none, none, none, none, none, none, none, none, none, none⟩

/-- Concrete configuration: string secret "A", default exp of one hour. -/
def cfgRT : JwtConfig :=
  { emptyCfg with secret := some (.sstr "A"),
                  dExp := some (.relT "1h" 3600) }

/-- Concrete sign input: one custom claim, no time-claim keys. -/
def siRT : SignInput :=
  ⟨.missing, .missing, .missing, [("name", some (.str "X"))]⟩

/-- Concrete configuration: string secret "A" and nothing else. -/
def cfgSecretA : JwtConfig := { emptyCfg with secret := some (.sstr "A") }

/-- Concrete configuration: JWK-shaped secret, no key-set resolver. -/
def cfgJwkSecret : JwtConfig := { emptyCfg with secret := some (.sjwk 7) }

/-- Concrete configuration: string secret "A" plus a rejecting validator. -/
def cfgRejectAll : JwtConfig :=
  { emptyCfg with secret := some (.sstr "A"),
                  validator := some (fun _ => false) }

/-- Concrete configuration: key-set resolver only, no local secret. -/
def cfgJwksOnly : JwtConfig :=
  { emptyCfg with jwks := some (fun _ => .ok (.passthrough 9)) }

/-- Token signed by a key other than "A" material. -/
def tokBad : Token := ⟨"HS256", [], .encoded "B"⟩

/-- Token signed with "A" material but already expired at time 100. -/
def tokExp : Token := ⟨"HS256", [("exp", some (.num 10))], .encoded "A"⟩

/-- Token signed with "A" material carrying only a custom claim. -/
def tokSch : Token := ⟨"HS256", [("n", some (.num 1))], .encoded "A"⟩

/-- A well-formed symmetric-algorithm token. -/
def tokHS : Token := ⟨"HS256", [], .encoded "A"⟩

/-- A well-formed asymmetric-algorithm token. -/
def tokRS : Token := ⟨"RS256", [], .passthrough 9⟩

/-- Token for the candidate-iteration witness, signed by key 1. -/
def tokV2 : Token := ⟨"RS256", [("a", some (.num 1))], .passthrough 1⟩

/-- Expired token for the candidate-iteration witness, signed by key 1. -/
def tokV2exp : Token := ⟨"RS256", [("exp", some (.num 10))], .passthrough 1⟩

/-- Configuration with a default exp of 100 seconds absolute. -/
def cfgDefaultExp : JwtConfig :=
  { emptyCfg with secret := some (.sstr "A"), dExp := some (.absT 100) }

/-- Sign input whose exp key is present and explicitly undefined. -/
def siExpUndef : SignInput := ⟨.undef, .undef, .missing, []⟩

/-- Sign input with no time-claim keys and no other claims. -/
def siBare : SignInput := ⟨.missing, .missing, .missing, []⟩

/-- Sign input passing the boolean false for iat. -/
def siIatFalse : SignInput := ⟨.missing, .missing, .val (.boolIat false), []⟩

/-- Sign input passing a concrete iat timestamp of 123. -/
def siIatConcrete : SignInput :=
  ⟨.missing, .missing, .val (.timeIat (.absT 123)), []⟩


theorem findLast_append (a b : Obj) (k : String) :
    findLast (a ++ b) k =
      match findLast b k with
      | some r => some r
      | none => findLast a k := by
  induction a with
  | nil =>
    cases h : findLast b k <;> simp [findLast, h]
  | cons e a ih =>
    cases h : findLast b k <;>
      simp [findLast, List.cons_append, ih, h]

theorem getObj_oset (o : Obj) (k : String) (v : ClaimVal) (k2 : String) :
    getObj (oset o k v) k2 = if k2 = k then some v else getObj o k2 := by
  unfold oset getObj
  rw [findLast_append]
  by_cases hk : k = k2
  · subst hk
    simp [findLast]
  · have hk2 : ¬ k2 = k := fun h => hk h.symm
    simp [findLast, hk, hk2]

theorem getObj_of_findLast_none (o : Obj) (k : String)
    (h : findLast o k = none) : getObj o k = none := by
  unfold getObj
  rw [h]

theorem jsCoalesce_none (a : Option ClaimVal) : jsCoalesce a none = a := by
  cases a <;> rfl

theorem getObj_append_of_findLast_none (a b : Obj) (k : String)
    (h : findLast b k = none) : getObj (a ++ b) k = getObj a k := by
  unfold getObj
  rw [findLast_append, h]

theorem getObj_append_of_findLast_some (a b : Obj) (k : String)
    (r : Option ClaimVal) (h : findLast b k = some r) :
    getObj (a ++ b) k = getObj b k := by
  unfold getObj
  rw [findLast_append, h]

theorem getObj_stdClaims_append (cfg : JwtConfig) (rest : Obj) (k : String)
    (hA : cfg.dAud = none) (hI : cfg.dIss = none)
    (hJ : cfg.dJti = none) (hS : cfg.dSub = none) :
    getObj (stdClaims cfg rest ++ rest) k = getObj rest k := by
  cases hfl : findLast rest k with
  | some r => rw [getObj_append_of_findLast_some _ _ _ r hfl]
  | none =>
    rw [getObj_append_of_findLast_none _ _ _ hfl,
        getObj_of_findLast_none _ _ hfl]
    by_cases h1 : k = "aud"
    · subst h1
      have hv : getObj rest "aud" = none := getObj_of_findLast_none _ _ hfl
      have h : findLast (stdClaims cfg rest) "aud"
          = some (jsCoalesce (getObj rest "aud") cfg.dAud) := by
        simp [stdClaims, findLast]
      unfold getObj
      rw [h, hv, hA]
      rfl
    by_cases h2 : k = "iss"
    · subst h2
      have hv : getObj rest "iss" = none := getObj_of_findLast_none _ _ hfl
      have h : findLast (stdClaims cfg rest) "iss"
          = some (jsCoalesce (getObj rest "iss") cfg.dIss) := by
        simp [stdClaims, findLast]
      unfold getObj
      rw [h, hv, hI]
      rfl
    by_cases h3 : k = "jti"
    · subst h3
      have hv : getObj rest "jti" = none := getObj_of_findLast_none _ _ hfl
      have h : findLast (stdClaims cfg rest) "jti"
          = some (jsCoalesce (getObj rest "jti") cfg.dJti) := by
        simp [stdClaims, findLast]
      unfold getObj
      rw [h, hv, hJ]
      rfl
    by_cases h4 : k = "sub"
    · subst h4
      have hv : getObj rest "sub" = none := getObj_of_findLast_none _ _ hfl
      have h : findLast (stdClaims cfg rest) "sub"
          = some (jsCoalesce (getObj rest "sub") cfg.dSub) := by
        simp [stdClaims, findLast]
      unfold getObj
      rw [h, hv, hS]
      rfl
    · apply getObj_of_findLast_none
      have h1b : ¬ ("aud" = k) := fun h => h1 h.symm
      have h2b : ¬ ("iss" = k) := fun h => h2 h.symm
      have h3b : ¬ ("jti" = k) := fun h => h3 h.symm
      have h4b : ¬ ("sub" = k) := fun h => h4 h.symm
      simp [stdClaims, findLast, h1b, h2b, h3b, h4b]

theorem findLast_stdClaims_ne (cfg : JwtConfig) (rest : Obj) (k : String)
    (h1 : k ≠ "aud") (h2 : k ≠ "iss") (h3 : k ≠ "jti") (h4 : k ≠ "sub") :
    findLast (stdClaims cfg rest) k = none := by
  have h1b : ¬ ("aud" = k) := fun h => h1 h.symm
  have h2b : ¬ ("iss" = k) := fun h => h2 h.symm
  have h3b : ¬ ("jti" = k) := fun h => h3 h.symm
  have h4b : ¬ ("sub" = k) := fun h => h4 h.symm
  simp [stdClaims, findLast, h1b, h2b, h3b, h4b]

theorem P0.signPayload_exp_lookup (cfg : JwtConfig) (si : SignInput)
    (now : Int) (hrest : findLast si.rest "exp" = none) :
    getObj (P0.signPayload cfg si now) "exp" =
      (if si.exp.inObj then si.exp.value else cfg.dExp).map
        (fun tv => ClaimVal.num (resolveTime now tv)) := by
  simp only [P0.signPayload]
  cases hiat : (if si.iat.inObj then si.iat.value
      else some (cfg.dIat.getD (IatIn.boolIat true))) with
  | none =>
    cases hexp : (if si.exp.inObj then si.exp.value else cfg.dExp) with
    | some tv =>
      simp [getObj_oset]
    | none =>
      simp only [Option.map_none]
      cases hnbf : (if si.nbf.inObj then si.nbf.value else cfg.dNbf) with
      | some tv =>
        rw [getObj_oset]
        rw [if_neg (by decide)]
        rw [getObj_append_of_findLast_none _ _ _ hrest]
        exact getObj_of_findLast_none _ _
          (findLast_stdClaims_ne cfg si.rest "exp"
            (by decide) (by decide) (by decide) (by decide))
      | none =>
        rw [getObj_append_of_findLast_none _ _ _ hrest]
        exact getObj_of_findLast_none _ _
          (findLast_stdClaims_ne cfg si.rest "exp"
            (by decide) (by decide) (by decide) (by decide))
  | some i =>
    have step : ∀ p2 : Obj,
        getObj (match some i with
          | some (IatIn.boolIat true) => oset p2 "iat" (.num now)
          | some (IatIn.timeIat tv) => oset p2 "iat" (.num (resolveTime now tv))
          | _ => p2) "exp" = getObj p2 "exp" := by
      intro p2
      cases i with
      | boolIat b =>
        cases b
        · rfl
        · rw [show (match some (IatIn.boolIat true) with
            | some (IatIn.boolIat true) => oset p2 "iat" (.num now)
            | some (IatIn.timeIat tv) =>
                oset p2 "iat" (.num (resolveTime now tv))
            | _ => p2) = oset p2 "iat" (.num now) from rfl]
          rw [getObj_oset]
          rw [if_neg (by decide)]
      | timeIat tv =>
        rw [show (match some (IatIn.timeIat tv) with
          | some (IatIn.boolIat true) => oset p2 "iat" (.num now)
          | some (IatIn.timeIat tv) =>
              oset p2 "iat" (.num (resolveTime now tv))
          | _ => p2) = oset p2 "iat" (.num (resolveTime now tv)) from rfl]
        rw [getObj_oset]
        rw [if_neg (by decide)]
    rw [step]
    cases hexp : (if si.exp.inObj then si.exp.value else cfg.dExp) with
    | some tv => simp [getObj_oset]
    | none =>
      simp only [Option.map_none]
      cases hnbf : (if si.nbf.inObj then si.nbf.value else cfg.dNbf) with
      | some tv =>
        rw [getObj_oset]
        rw [if_neg (by decide)]
        rw [getObj_append_of_findLast_none _ _ _ hrest]
        exact getObj_of_findLast_none _ _
          (findLast_stdClaims_ne cfg si.rest "exp"
            (by decide) (by decide) (by decide) (by decide))
      | none =>
        rw [getObj_append_of_findLast_none _ _ _ hrest]
        exact getObj_of_findLast_none _ _
          (findLast_stdClaims_ne cfg si.rest "exp"
            (by decide) (by decide) (by decide) (by decide))

theorem getObj_iatStage_ne (p2 : Obj) (x : Option IatIn) (now : Int)
    (k : String) (hk : k ≠ "iat") :
    getObj (match x with
      | some (IatIn.boolIat true) => oset p2 "iat" (ClaimVal.num now)
      | some (IatIn.timeIat tv) =>
          oset p2 "iat" (ClaimVal.num (resolveTime now tv))
      | _ => p2) k = getObj p2 k := by
  cases x with
  | none => rfl
  | some i =>
    cases i with
    | boolIat b =>
      cases b
      · rfl
      · rw [show (match some (IatIn.boolIat true) with
          | some (IatIn.boolIat true) => oset p2 "iat" (ClaimVal.num now)
          | some (IatIn.timeIat tv) =>
              oset p2 "iat" (ClaimVal.num (resolveTime now tv))
          | _ => p2) = oset p2 "iat" (ClaimVal.num now) from rfl]
        rw [getObj_oset, if_neg hk]
    | timeIat tv =>
      rw [show (match some (IatIn.timeIat tv) with
        | some (IatIn.boolIat true) => oset p2 "iat" (ClaimVal.num now)
        | some (IatIn.timeIat tv) =>
            oset p2 "iat" (ClaimVal.num (resolveTime now tv))
        | _ => p2) = oset p2 "iat" (ClaimVal.num (resolveTime now tv)) from rfl]
      rw [getObj_oset, if_neg hk]

theorem getObj_iatStage_self (p2 : Obj) (x : Option IatIn) (now : Int) :
    getObj (match x with
      | some (IatIn.boolIat true) => oset p2 "iat" (ClaimVal.num now)
      | some (IatIn.timeIat tv) =>
          oset p2 "iat" (ClaimVal.num (resolveTime now tv))
      | _ => p2) "iat" =
      (match x with
      | some (IatIn.boolIat true) => some (ClaimVal.num now)
      | some (IatIn.timeIat tv) => some (ClaimVal.num (resolveTime now tv))
      | _ => getObj p2 "iat") := by
  cases x with
  | none => rfl
  | some i =>
    cases i with
    | boolIat b =>
      cases b
      · rfl
      · rw [show (match some (IatIn.boolIat true) with
          | some (IatIn.boolIat true) => oset p2 "iat" (ClaimVal.num now)
          | some (IatIn.timeIat tv) =>
              oset p2 "iat" (ClaimVal.num (resolveTime now tv))
          | _ => p2) = oset p2 "iat" (ClaimVal.num now) from rfl]
        rw [getObj_oset, if_pos rfl]
    | timeIat tv =>
      rw [show (match some (IatIn.timeIat tv) with
        | some (IatIn.boolIat true) => oset p2 "iat" (ClaimVal.num now)
        | some (IatIn.timeIat tv) =>
            oset p2 "iat" (ClaimVal.num (resolveTime now tv))
        | _ => p2) = oset p2 "iat" (ClaimVal.num (resolveTime now tv)) from rfl]
      rw [getObj_oset, if_pos rfl]

theorem getObj_timeStage_ne (p : Obj) (x : Option TimeIn) (kset : String)
    (now : Int) (k : String) (hk : k ≠ kset) :
    getObj (match x with
      | some tv => oset p kset (ClaimVal.num (resolveTime now tv))
      | none => p) k = getObj p k := by
  cases x with
  | none => rfl
  | some tv =>
    rw [show (match some tv with
      | some tv => oset p kset (ClaimVal.num (resolveTime now tv))
      | none => p) = oset p kset (ClaimVal.num (resolveTime now tv)) from rfl]
    rw [getObj_oset, if_neg hk]

theorem P0.signPayload_nbf_lookup (cfg : JwtConfig) (si : SignInput)
    (now : Int) (hrest : findLast si.rest "nbf" = none) :
    getObj (P0.signPayload cfg si now) "nbf" =
      (if si.nbf.inObj then si.nbf.value else cfg.dNbf).map
        (fun tv => ClaimVal.num (resolveTime now tv)) := by
  simp only [P0.signPayload]
  rw [getObj_iatStage_ne _ _ _ _ (by decide)]
  rw [getObj_timeStage_ne _ _ _ _ _ (by decide)]
  cases hnbf : (if si.nbf.inObj then si.nbf.value else cfg.dNbf) with
  | some tv => simp [getObj_oset]
  | none =>
    simp only [Option.map_none]
    rw [getObj_append_of_findLast_none _ _ _ hrest]
    exact getObj_of_findLast_none _ _
      (findLast_stdClaims_ne cfg si.rest "nbf"
        (by decide) (by decide) (by decide) (by decide))

theorem P0.signPayload_iat_lookup (cfg : JwtConfig) (si : SignInput)
    (now : Int) (hrest : findLast si.rest "iat" = none) :
    getObj (P0.signPayload cfg si now) "iat" =
      (match (if si.iat.inObj then si.iat.value
          else some (cfg.dIat.getD (IatIn.boolIat true))) with
      | some (IatIn.boolIat true) => some (ClaimVal.num now)
      | some (IatIn.timeIat tv) => some (ClaimVal.num (resolveTime now tv))
      | _ => none) := by
  simp only [P0.signPayload]
  rw [getObj_iatStage_self]
  have hbase : getObj
      (match (if si.exp.inObj then si.exp.value else cfg.dExp) with
        | some tv =>
            oset (match (if si.nbf.inObj then si.nbf.value else cfg.dNbf) with
              | some tv => oset (stdClaims cfg si.rest ++ si.rest) "nbf"
                  (ClaimVal.num (resolveTime now tv))
              | none => stdClaims cfg si.rest ++ si.rest) "exp"
              (ClaimVal.num (resolveTime now tv))
        | none => (match (if si.nbf.inObj then si.nbf.value else cfg.dNbf) with
              | some tv => oset (stdClaims cfg si.rest ++ si.rest) "nbf"
                  (ClaimVal.num (resolveTime now tv))
              | none => stdClaims cfg si.rest ++ si.rest)) "iat" = none := by
    rw [getObj_timeStage_ne _ _ _ _ _ (by decide)]
    rw [getObj_timeStage_ne _ _ _ _ _ (by decide)]
    rw [getObj_append_of_findLast_none _ _ _ hrest]
    exact getObj_of_findLast_none _ _
      (findLast_stdClaims_ne cfg si.rest "iat"
        (by decide) (by decide) (by decide) (by decide))
  cases hiat : (if si.iat.inObj then si.iat.value
      else some (cfg.dIat.getD (IatIn.boolIat true))) with
  | none => exact hbase
  | some i =>
    cases i with
    | boolIat b => cases b <;> simp [hbase]
    | timeIat tv => rfl

theorem P0.signPayload_other_lookup (cfg : JwtConfig) (si : SignInput)
    (now : Int) (k : String)
    (h1 : k ≠ "nbf") (h2 : k ≠ "exp") (h3 : k ≠ "iat")
    (hA : cfg.dAud = none) (hI : cfg.dIss = none)
    (hJ : cfg.dJti = none) (hS : cfg.dSub = none) :
    getObj (P0.signPayload cfg si now) k = getObj si.rest k := by
  simp only [P0.signPayload]
  rw [getObj_iatStage_ne _ _ _ _ h3]
  rw [getObj_timeStage_ne _ _ _ _ _ h2]
  rw [getObj_timeStage_ne _ _ _ _ _ h1]
  exact getObj_stdClaims_append cfg si.rest k hA hI hJ hS

/-- C1: Round-trip for the JWKS-capable variant. For every claims set
without the reserved time-claim keys, signing with a (non-empty) string
secret and verifying the produced token before its expiry succeeds and
returns the claims unchanged, with exp and iat additionally populated from
the configured defaults (iat defaulting to "now" and suppressed only when
the default disables it). -/
theorem P0.verify_sign_roundtrip (cfg : JwtConfig) (si : SignInput)
    (signTime verifyTime : Int) (s : String)
    (hsec : cfg.secret = some (.sstr s)) (hs : s ≠ "")
    (hjwks : cfg.jwks = none) (hval : cfg.validator = none)
    (hA : cfg.dAud = none) (hI : cfg.dIss = none)
    (hJ : cfg.dJti = none) (hS : cfg.dSub = none)
    (hNbf : cfg.dNbf = none)
    (hnoNbf : si.nbf = .missing) (hnoExp : si.exp = .missing)
    (hnoIat : si.iat = .missing)
    (hrn : findLast si.rest "nbf" = none)
    (hre : findLast si.rest "exp" = none)
    (hri : findLast si.rest "iat" = none)
    (hlive : expStillValid cfg.dExp signTime verifyTime = true) :
    ∃ t p, P0.sign cfg si signTime = some t ∧
      P0.verify cfg (some (.wellFormed t)) none verifyTime = some p ∧
      getObj p "exp" =
        cfg.dExp.map (fun tv => ClaimVal.num (resolveTime signTime tv)) ∧
      getObj p "iat" = iatClaimValue cfg.dIat signTime ∧
      (∀ k, k ≠ "exp" → k ≠ "iat" → getObj p k = getObj si.rest k) := by
  have hkey : P0.key cfg = some (.encoded s) := by
    simp [P0.key, hsec, SecretVal.truthy, hs]
  have hsign : P0.sign cfg si signTime =
      some ⟨(buildJWSHeader cfg).alg, P0.signPayload cfg si signTime,
        .encoded s⟩ := by
    simp [P0.sign, hkey]
  have hexpP : getObj (P0.signPayload cfg si signTime) "exp" =
      cfg.dExp.map (fun tv => ClaimVal.num (resolveTime signTime tv)) := by
    rw [P0.signPayload_exp_lookup cfg si signTime hre]
    simp [hnoExp, JsField.inObj]
  have hnbfP : getObj (P0.signPayload cfg si signTime) "nbf" = none := by
    rw [P0.signPayload_nbf_lookup cfg si signTime hrn]
    simp [hnoNbf, JsField.inObj, hNbf]
  have hiatP : getObj (P0.signPayload cfg si signTime) "iat" =
      iatClaimValue cfg.dIat signTime := by
    rw [P0.signPayload_iat_lookup cfg si signTime hri]
    simp only [hnoIat, JsField.inObj, Bool.false_eq_true, if_false]
    cases hdi : cfg.dIat with
    | none => simp [iatClaimValue]
    | some i =>
      cases i with
      | boolIat b => cases b <;> simp [iatClaimValue]
      | timeIat tv => simp [iatClaimValue]
  have hexpOk : checkExp (P0.signPayload cfg si signTime) verifyTime
      = .ok () := by
    unfold checkExp
    rw [hexpP]
    cases hde : cfg.dExp with
    | none => rfl
    | some tv =>
      have hlt : verifyTime < resolveTime signTime tv := by
        rw [hde] at hlive
        exact of_decide_eq_true hlive
      simp [Option.map_some, not_le.mpr hlt]
  have hnbfOk : checkNbf (P0.signPayload cfg si signTime) verifyTime
      = .ok () := by
    unfold checkNbf
    rw [hnbfP]
  have hver : P0.verify cfg
      (some (.wellFormed ⟨(buildJWSHeader cfg).alg,
        P0.signPayload cfg si signTime, .encoded s⟩)) none verifyTime
      = some (P0.signPayload cfg si signTime) := by
    simp only [P0.verify, hjwks, hkey, hval, Option.isSome_none,
      Bool.and_false, Bool.false_eq_true, if_false]
    simp only [jwtVerifyCore, checkAlgAllowed, ne_eq, not_true_eq_false,
      if_false, hexpOk, hnbfOk]
    simp
  refine ⟨_, _, hsign, hver, hexpP, hiatP, ?_⟩
  intro k hk1 hk2
  by_cases hk3 : k = "nbf"
  · subst hk3
    rw [hnbfP, getObj_of_findLast_none _ _ hrn]
  · exact P0.signPayload_other_lookup cfg si signTime k hk3 hk1 hk2 hA hI hJ hS

/-- Witness for C1: the round-trip theorem applied at the concrete
configuration cfgRT and claims set siRT, signing at time 1000 and
verifying at time 2000 (before the default expiry). -/
theorem P0.verify_sign_roundtrip_witness :
    ∃ t p, P0.sign cfgRT siRT 1000 = some t ∧
      P0.verify cfgRT (some (.wellFormed t)) none 2000 = some p ∧
      getObj p "exp" =
        cfgRT.dExp.map (fun tv => ClaimVal.num (resolveTime 1000 tv)) ∧
      getObj p "iat" = iatClaimValue cfgRT.dIat 1000 ∧
      (∀ k, k ≠ "exp" → k ≠ "iat" → getObj p k = getObj siRT.rest k) :=
  P0.verify_sign_roundtrip cfgRT siRT 1000 2000 "A" rfl (by decide) rfl rfl
    rfl rfl rfl rfl rfl rfl rfl rfl rfl rfl rfl (by decide)

/-- C2: every failure mode of the JWKS-variant verify collapses to the
single false sentinel (modelled as `none`; the embedding is a total
function into Option, so no exception can propagate): undefined input,
the empty string, a malformed token, an invalid signature, an expired
token, a configuration with no resolvable key, and a schema violation all
yield `none`, and the schema violation is indistinguishable from the
signature failure at the public boundary. -/
theorem P0.verify_failures_to_false
    (cfg cfgNK cfgV : JwtConfig) (tBad tExp tSch tAny : Token)
    (k kV : KeyMat) (now e : Int) (v : Obj → Bool)
    (hkey : P0.key cfg = some k) (hjwks : cfg.jwks = none)
    (hbad : tBad.sigKey ≠ k)
    (hexpKey : tExp.sigKey = k)
    (hexpClaim : getObj tExp.payload "exp" = some (.num e)) (he : e ≤ now)
    (hNKkey : P0.key cfgNK = none) (hNKjwks : cfgNK.jwks = none)
    (hVkey : P0.key cfgV = some kV) (hVjwks : cfgV.jwks = none)
    (hVval : cfgV.validator = some v)
    (hSchKey : tSch.sigKey = kV)
    (hSchExp : getObj tSch.payload "exp" = none)
    (hSchNbf : getObj tSch.payload "nbf" = none)
    (hSchFail : v tSch.payload = false) :
    P0.verify cfg none none now = none ∧
    P0.verify cfg (some .emptyStr) none now = none ∧
    P0.verify cfg (some .malformedStr) none now = none ∧
    P0.verify cfg (some (.wellFormed tBad)) none now = none ∧
    P0.verify cfg (some (.wellFormed tExp)) none now = none ∧
    P0.verify cfgNK (some (.wellFormed tAny)) none now = none ∧
    P0.verify cfgV (some (.wellFormed tSch)) none now = none ∧
    P0.verify cfgV (some (.wellFormed tSch)) none now
      = P0.verify cfg (some (.wellFormed tBad)) none now := by
  have h4 : P0.verify cfg (some (.wellFormed tBad)) none now = none := by
    simp [P0.verify, hjwks, hkey, jwtVerifyCore, checkAlgAllowed, hbad]
  have h5 : P0.verify cfg (some (.wellFormed tExp)) none now = none := by
    simp [P0.verify, hjwks, hkey, jwtVerifyCore, checkAlgAllowed, hexpKey,
      checkExp, hexpClaim, he]
  have h6 : P0.verify cfgNK (some (.wellFormed tAny)) none now = none := by
    simp [P0.verify, hNKjwks, hNKkey, jwtVerifyCore]
  have h7 : P0.verify cfgV (some (.wellFormed tSch)) none now = none := by
    simp [P0.verify, hVjwks, hVkey, hVval, jwtVerifyCore, checkAlgAllowed,
      hSchKey, checkExp, hSchExp, checkNbf, hSchNbf, hSchFail]
  exact ⟨rfl, rfl, rfl, h4, h5, h6, h7, by rw [h4, h7]⟩

/-- Witness for C2 at concrete configurations and tokens: secret "A" for
the signature/expiry cases, a JWK-shaped secret for the no-resolvable-key
case, and a validator rejecting every payload for the schema case. -/
theorem P0.verify_failures_to_false_witness :
    P0.verify cfgSecretA none none 100 = none ∧
    P0.verify cfgSecretA (some .emptyStr) none 100 = none ∧
    P0.verify cfgSecretA (some .malformedStr) none 100 = none ∧
    P0.verify cfgSecretA (some (.wellFormed tokBad)) none 100 = none ∧
    P0.verify cfgSecretA (some (.wellFormed tokExp)) none 100 = none ∧
    P0.verify cfgJwkSecret (some (.wellFormed tokHS)) none 100 = none ∧
    P0.verify cfgRejectAll (some (.wellFormed tokSch)) none 100 = none ∧
    P0.verify cfgRejectAll (some (.wellFormed tokSch)) none 100
      = P0.verify cfgSecretA (some (.wellFormed tokBad)) none 100 :=
  P0.verify_failures_to_false cfgSecretA cfgJwkSecret cfgRejectAll
    tokBad tokExp tokSch tokHS (.encoded "A") (.encoded "A") 100 10
    (fun _ => false) rfl rfl (by decide) rfl rfl (by decide) rfl rfl rfl
    rfl rfl rfl rfl rfl rfl

/-- C3: in the JWKS variant, a token whose protected header declares a
symmetric (HS-prefixed) algorithm fails verification whenever a key-set
resolver is configured without a local secret, regardless of the key
material the resolver could supply. -/
theorem P0.symmetric_jwks_only_fails (cfg : JwtConfig) (t : Token)
    (f : Token → Except JoseError KeyMat)
    (opts : Option VerifyOptions) (now : Int)
    (hsec : cfg.secret = none) (hjwks : cfg.jwks = some f)
    (halg : isSymmetricAlg t.alg = true) :
    P0.verify cfg (some (.wellFormed t)) opts now = none := by
  simp [P0.verify, P0.key, hsec, hjwks, halg]

/-- Witness for C3: an HS256 token against a resolver-only configuration
returns the false sentinel. -/
theorem P0.symmetric_jwks_only_fails_witness :
    P0.verify cfgJwksOnly (some (.wellFormed tokHS)) none 0 = none :=
  P0.symmetric_jwks_only_fails cfgJwksOnly tokHS
    (fun _ => .ok (.passthrough 9)) none 0 rfl rfl (by decide)

/-- C4: when verify delegates to the key-set resolver (non-symmetric
declared algorithm, jwks configured) and the caller supplied no algorithms
restriction, the options passed to the verification call carry exactly the
asymmetric allow-list RS256/RS384/RS512, PS256/PS384/PS512,
ES256/ES384/ES512, EdDSA, which contains no HS algorithm; and verify in
that case is exactly the resolver-based verification under those
constrained options. -/
theorem P0.jwks_algorithm_allowlist (cfg : JwtConfig) (t : Token)
    (f : Token → Except JoseError KeyMat) (options : Option VerifyOptions)
    (now : Int)
    (hjwks : cfg.jwks = some f)
    (hasym : isSymmetricAlg t.alg = false)
    (hnoAlgs : noAlgRestriction options = true) :
    (jwksVerifyOptions options).algorithms = some asymmetricVerificationAlgs ∧
    asymmetricVerificationAlgs =
      ["RS256", "RS384", "RS512", "PS256", "PS384", "PS512",
       "ES256", "ES384", "ES512", "EdDSA"] ∧
    (∀ a ∈ asymmetricVerificationAlgs, isSymmetricAlg a = false) ∧
    P0.verify cfg (some (.wellFormed t)) options now =
      (match jwtVerifyJwks t f (jwksVerifyOptions options) now with
       | .error _ => none
       | .ok data =>
         match cfg.validator with
         | none => some data
         | some check => if check data then some data else none) := by
  refine ⟨?_, rfl, by decide, ?_⟩
  · cases options with
    | none => rfl
    | some o =>
      cases ho : o.algorithms with
      | some l =>
        rw [noAlgRestriction] at hnoAlgs
        rw [ho] at hnoAlgs
        simp [Option.isNone] at hnoAlgs
      | none => simp [jwksVerifyOptions, ho]
  · simp [P0.verify, hjwks, hasym]

/-- Witness for C4: an RS256 token against the resolver-only
configuration, with no caller-supplied options. -/
theorem P0.jwks_algorithm_allowlist_witness :
    (jwksVerifyOptions none).algorithms = some asymmetricVerificationAlgs ∧
    asymmetricVerificationAlgs =
      ["RS256", "RS384", "RS512", "PS256", "PS384", "PS512",
       "ES256", "ES384", "ES512", "EdDSA"] ∧
    (∀ a ∈ asymmetricVerificationAlgs, isSymmetricAlg a = false) ∧
    P0.verify cfgJwksOnly (some (.wellFormed tokRS)) none 0 =
      (match jwtVerifyJwks tokRS (fun _ => .ok (.passthrough 9))
          (jwksVerifyOptions none) 0 with
       | .error _ => none
       | .ok data =>
         match cfgJwksOnly.validator with
         | none => some data
         | some check => if check data then some data else none) :=
  P0.jwks_algorithm_allowlist cfgJwksOnly tokRS
    (fun _ => .ok (.passthrough 9)) none 0 rfl (by decide) rfl

theorem V2.tryCandidates_append_sigFail (t : Token)
    (o : Option VerifyOptions) (now : Int) (pre : List KeyMat)
    (hpre : ∀ kk ∈ pre, jwtVerifyCore t (some kk) o now
      = .error .jwsSignatureVerificationFailed) (ks : List KeyMat) :
    V2.tryCandidates t o now (pre ++ ks) = V2.tryCandidates t o now ks := by
  induction pre with
  | nil => rfl
  | cons kk pre ih =>
    have hk := hpre kk (List.mem_cons_self kk pre)
    rw [List.cons_append]
    rw [show V2.tryCandidates t o now (kk :: (pre ++ ks))
      = (match jwtVerifyCore t (some kk) o now with
        | .ok p => .ok p
        | .error .jwsSignatureVerificationFailed =>
            V2.tryCandidates t o now (pre ++ ks)
        | .error e => .error e) from rfl]
    rw [hk]
    exact ih (fun x hx => hpre x (List.mem_cons_of_mem kk hx))

/-- C5: candidate-key iteration in the JWKS-retry variant. When the
primary verification reports multiple matching keys, the candidates are
iterated in order: after any run of signature-mismatch candidates, a
succeeding candidate returns its payload, a candidate failing with any
non-signature error stops the iteration with that error, and an exhausted
candidate list fails with the signature-verification error. -/
theorem V2.multi_candidate_iteration (t : Token) (o : Option VerifyOptions)
    (now : Int) (pre : List KeyMat)
    (hpre : ∀ kk ∈ pre, jwtVerifyCore t (some kk) o now
      = .error .jwsSignatureVerificationFailed) :
    (∀ k rest p, jwtVerifyCore t (some k) o now = .ok p →
      V2.verifyWithRetry
        (.error (.jwksMultipleMatchingKeys (pre ++ k :: rest))) t o now
        = .ok p) ∧
    (∀ k rest e, jwtVerifyCore t (some k) o now = .error e →
      e ≠ .jwsSignatureVerificationFailed →
      V2.verifyWithRetry
        (.error (.jwksMultipleMatchingKeys (pre ++ k :: rest))) t o now
        = .error e) ∧
    V2.verifyWithRetry (.error (.jwksMultipleMatchingKeys pre)) t o now
      = .error .jwsSignatureVerificationFailed := by
  refine ⟨?_, ?_, ?_⟩
  · intro k rest p hk
    show V2.tryCandidates t o now (pre ++ k :: rest) = .ok p
    rw [V2.tryCandidates_append_sigFail t o now pre hpre]
    rw [show V2.tryCandidates t o now (k :: rest)
      = (match jwtVerifyCore t (some k) o now with
        | .ok p => .ok p
        | .error .jwsSignatureVerificationFailed =>
            V2.tryCandidates t o now rest
        | .error e => .error e) from rfl]
    rw [hk]
  · intro k rest e hk hne
    show V2.tryCandidates t o now (pre ++ k :: rest) = .error e
    rw [V2.tryCandidates_append_sigFail t o now pre hpre]
    rw [show V2.tryCandidates t o now (k :: rest)
      = (match jwtVerifyCore t (some k) o now with
        | .ok p => .ok p
        | .error .jwsSignatureVerificationFailed =>
            V2.tryCandidates t o now rest
        | .error e => .error e) from rfl]
    rw [hk]
    cases e with
    | jwsSignatureVerificationFailed => exact absurd rfl hne
    | malformedToken => rfl
    | invalidKeyInput => rfl
    | algNotAllowed => rfl
    | expiredClaim => rfl
    | notYetValidClaim => rfl
    | invalidClaimValue => rfl
    | jwksMultipleMatchingKeys ks => rfl
    | jwksNoMatchingKey => rfl
  · show V2.tryCandidates t o now pre = .error .jwsSignatureVerificationFailed
    have h := V2.tryCandidates_append_sigFail t o now pre hpre []
    rw [List.append_nil] at h
    exact h

/-- Witness for C5: against a first candidate that mismatches the
signature, a succeeding second candidate returns the payload, a second
candidate failing with the expiry error stops with that error, and a
mismatch-only candidate list fails with the signature error. -/
theorem V2.multi_candidate_iteration_witness :
    V2.verifyWithRetry (.error (.jwksMultipleMatchingKeys
        ([KeyMat.passthrough 2] ++ KeyMat.passthrough 1 ::
          [KeyMat.passthrough 3]))) tokV2 none 0 = .ok tokV2.payload ∧
    V2.verifyWithRetry (.error (.jwksMultipleMatchingKeys
        ([KeyMat.passthrough 2] ++ KeyMat.passthrough 1 ::
          [KeyMat.passthrough 3]))) tokV2exp none 100
      = .error .expiredClaim ∧
    V2.verifyWithRetry (.error (.jwksMultipleMatchingKeys
        [KeyMat.passthrough 2])) tokV2 none 0
      = .error .jwsSignatureVerificationFailed := by
  have hpre1 : ∀ kk ∈ [KeyMat.passthrough 2],
      jwtVerifyCore tokV2 (some kk) none 0
        = .error .jwsSignatureVerificationFailed := by
    intro kk hk
    rw [List.mem_singleton] at hk
    subst hk
    rfl
  have hpre2 : ∀ kk ∈ [KeyMat.passthrough 2],
      jwtVerifyCore tokV2exp (some kk) none 100
        = .error .jwsSignatureVerificationFailed := by
    intro kk hk
    rw [List.mem_singleton] at hk
    subst hk
    rfl
  have h1 := V2.multi_candidate_iteration tokV2 none 0
    [KeyMat.passthrough 2] hpre1
  have h2 := V2.multi_candidate_iteration tokV2exp none 100
    [KeyMat.passthrough 2] hpre2
  exact ⟨h1.1 (.passthrough 1) [.passthrough 3] tokV2.payload rfl,
    h2.2.1 (.passthrough 1) [.passthrough 3] .expiredClaim rfl (by decide),
    h1.2.2⟩

/-- C6 counterexample: in the sign of the first src/src/index.ts variant,
a call whose input contains the key exp with the undefined value does not
suppress the claim: with a configured default exp of 100 the emitted
payload still carries exp = 100, refuting the claim that such a call
produces a token with no exp claim at all. -/
theorem MainA.exp_undef_override_not_suppressed :
    getObj (MainA.signPayload cfgDefaultExp siExpUndef 50) "exp"
        = some (ClaimVal.num 100) ∧
    getObj (MainA.signPayload cfgDefaultExp siExpUndef 50) "exp"
        ≠ none := by
  exact ⟨by decide, by decide⟩

/-- C6 amended: in the JWKS-capable variant sign, presence of exp and nbf
is determined by key existence — an explicitly-undefined per-call override
yields a token with no such claim even when a configured default exists,
and an absent key applies the configured default; in the first
src/src/index.ts variant, presence is determined by the value being
defined, so an explicitly-undefined per-call exp falls back to the
configured default. -/
theorem timeclaim_presence_amended (cfg : JwtConfig)
    (si1 si2 mi : SignInput) (now : Int) (tv : TimeIn)
    (h1e : si1.exp = .undef) (h1n : si1.nbf = .undef)
    (h1re : findLast si1.rest "exp" = none)
    (h1rn : findLast si1.rest "nbf" = none)
    (h2e : si2.exp = .missing) (h2n : si2.nbf = .missing)
    (h2re : findLast si2.rest "exp" = none)
    (h2rn : findLast si2.rest "nbf" = none)
    (hmi : mi.exp = .undef) (hdexp : cfg.dExp = some tv) :
    getObj (P0.signPayload cfg si1 now) "exp" = none ∧
    getObj (P0.signPayload cfg si1 now) "nbf" = none ∧
    getObj (P0.signPayload cfg si2 now) "exp" =
      cfg.dExp.map (fun t => ClaimVal.num (resolveTime now t)) ∧
    getObj (P0.signPayload cfg si2 now) "nbf" =
      cfg.dNbf.map (fun t => ClaimVal.num (resolveTime now t)) ∧
    getObj (MainA.signPayload cfg mi now) "exp"
      = some (ClaimVal.num (resolveTime now tv)) := by
  refine ⟨?_, ?_, ?_, ?_, ?_⟩
  · rw [P0.signPayload_exp_lookup cfg si1 now h1re]
    simp [h1e, JsField.inObj, JsField.value]
  · rw [P0.signPayload_nbf_lookup cfg si1 now h1rn]
    simp [h1n, JsField.inObj, JsField.value]
  · rw [P0.signPayload_exp_lookup cfg si2 now h2re]
    simp [h2e, JsField.inObj]
  · rw [P0.signPayload_nbf_lookup cfg si2 now h2rn]
    simp [h2n, JsField.inObj]
  · simp only [MainA.signPayload, hmi, hdexp, JsField.value]
    split
    · rw [getObj_oset, if_pos rfl]
    · rw [getObj_oset, if_neg (by decide), getObj_oset, if_pos rfl]

/-- Witness for the amended C6 at concrete inputs: default exp of 100,
one sign input with explicitly-undefined exp/nbf keys and one with the
keys absent. -/
theorem timeclaim_presence_amended_witness :
    getObj (P0.signPayload cfgDefaultExp siExpUndef 50) "exp" = none ∧
    getObj (P0.signPayload cfgDefaultExp siExpUndef 50) "nbf" = none ∧
    getObj (P0.signPayload cfgDefaultExp siBare 50) "exp" =
      cfgDefaultExp.dExp.map (fun t => ClaimVal.num (resolveTime 50 t)) ∧
    getObj (P0.signPayload cfgDefaultExp siBare 50) "nbf" =
      cfgDefaultExp.dNbf.map (fun t => ClaimVal.num (resolveTime 50 t)) ∧
    getObj (MainA.signPayload cfgDefaultExp siExpUndef 50) "exp"
      = some (ClaimVal.num (resolveTime 50 (.absT 100))) :=
  timeclaim_presence_amended cfgDefaultExp siExpUndef siBare siExpUndef 50
    (.absT 100) rfl rfl rfl rfl rfl rfl rfl rfl rfl rfl

/-- C7: evaluation at the failing inputs in the first src/src/index.ts
variant: a per-call iat of the boolean false with no configured iat
default still yields an iat claim set to the current time 50 (the guard
is an OR of the two tests against false, so a lone per-call false cannot
suppress), and a concrete per-call iat timestamp of 123 is replaced by
the current time 50 instead of being used verbatim — contradicting the
claim and the code's own comment ("If a specific value is provided, use
it. Otherwise, if the claim is just marked as true, set it to the
current time."). -/
theorem MainA.iat_semantics_violated :
    getObj (MainA.signPayload cfgSecretA siIatFalse 50) "iat"
        = some (ClaimVal.num 50) ∧
    getObj (MainA.signPayload cfgSecretA siIatFalse 50) "iat" ≠ none ∧
    getObj (MainA.signPayload cfgSecretA siIatConcrete 50) "iat"
        = some (ClaimVal.num 50) ∧
    getObj (MainA.signPayload cfgSecretA siIatConcrete 50) "iat"
        ≠ some (ClaimVal.num 123) := by
  exact ⟨by decide, by decide, by decide, by decide⟩

/-- C8: configuration misuse fails loudly in the JWKS variant: a
configuration with neither a truthy secret nor a key-set resolver throws
the configuration error at construction, while a resolver-only
configuration constructs successfully and its facade exposes no sign
operation. -/
theorem P0.construction_misuse_loud (cfg cfg2 : JwtConfig)
    (f : Token → Except JoseError KeyMat)
    (h1 : cfg.secret = none) (h2 : cfg.jwks = none)
    (h3 : cfg2.secret = none) (h4 : cfg2.jwks = some f) :
    P0.construct cfg
      = .error "Either \"secret\" or \"jwks\" must be provided" ∧
    P0.construct cfg2 = .ok () ∧
    P0.signAvailable cfg2 = false := by
  refine ⟨?_, ?_, ?_⟩
  · simp [P0.construct, P0.secretTruthy, h1, h2]
  · simp [P0.construct, P0.secretTruthy, h3, h4]
  · simp [P0.signAvailable, P0.secretTruthy, h3]

/-- Witness for C8: the empty configuration and the resolver-only
configuration. -/
theorem P0.construction_misuse_loud_witness :
    P0.construct emptyCfg
      = .error "Either \"secret\" or \"jwks\" must be provided" ∧
    P0.construct cfgJwksOnly = .ok () ∧
    P0.signAvailable cfgJwksOnly = false :=
  P0.construction_misuse_loud emptyCfg cfgJwksOnly
    (fun _ => .ok (.passthrough 9)) rfl rfl rfl rfl

/-- C9: header fallback defaults. When the configured defaults supply
nothing, the signing protected header carries alg HS256 and typ JWT, the
encryption protected header carries alg RSA-OAEP-256, enc A256GCM, cty
JWT and typ JWT, and every header field supplied nowhere is omitted
(`none`) rather than set to an empty value. -/
theorem header_fallback_defaults (cfg : JwtConfig)
    (hAlg : cfg.dAlg = none) (hTyp : cfg.dTyp = none)
    (hEnc : cfg.dEnc = none) (hCty : cfg.dCty = none)
    (hKid : cfg.dKid = none) (hCrit : cfg.dCrit = none)
    (hJku : cfg.dJku = none) (hJwk : cfg.dJwk = none)
    (hX5c : cfg.dX5c = none) (hX5t : cfg.dX5t = none)
    (hX5u : cfg.dX5u = none) (hB64 : cfg.dB64 = none) :
    (buildJWSHeader cfg).alg = "HS256" ∧
    (buildJWSHeader cfg).typ = "JWT" ∧
    (buildJWEHeader cfg).alg = "RSA-OAEP-256" ∧
    (buildJWEHeader cfg).enc = "A256GCM" ∧
    (buildJWEHeader cfg).cty = "JWT" ∧
    (buildJWEHeader cfg).typ = "JWT" ∧
    (buildJWSHeader cfg).kid = none ∧
    (buildJWSHeader cfg).crit = none ∧
    (buildJWSHeader cfg).cty = none ∧
    (buildJWSHeader cfg).jku = none ∧
    (buildJWSHeader cfg).jwk = none ∧
    (buildJWSHeader cfg).b64 = none ∧
    (buildJWSHeader cfg).x5c = none ∧
    (buildJWSHeader cfg).x5t = none ∧
    (buildJWSHeader cfg).x5u = none ∧
    (buildJWEHeader cfg).kid = none ∧
    (buildJWEHeader cfg).crit = none := by
  simp [buildJWSHeader, buildJWEHeader, hAlg, hTyp, hEnc, hCty, hKid,
    hCrit, hJku, hJwk, hX5c, hX5t, hX5u, hB64]

/-- Witness for C9 at the empty configuration. -/
theorem header_fallback_defaults_witness :
    (buildJWSHeader emptyCfg).alg = "HS256" ∧
    (buildJWSHeader emptyCfg).typ = "JWT" ∧
    (buildJWEHeader emptyCfg).alg = "RSA-OAEP-256" ∧
    (buildJWEHeader emptyCfg).enc = "A256GCM" ∧
    (buildJWEHeader emptyCfg).cty = "JWT" ∧
    (buildJWEHeader emptyCfg).typ = "JWT" ∧
    (buildJWSHeader emptyCfg).kid = none ∧
    (buildJWSHeader emptyCfg).crit = none ∧
    (buildJWSHeader emptyCfg).cty = none ∧
    (buildJWSHeader emptyCfg).jku = none ∧
    (buildJWSHeader emptyCfg).jwk = none ∧
    (buildJWSHeader emptyCfg).b64 = none ∧
    (buildJWSHeader emptyCfg).x5c = none ∧
    (buildJWSHeader emptyCfg).x5t = none ∧
    (buildJWSHeader emptyCfg).x5u = none ∧
    (buildJWEHeader emptyCfg).kid = none ∧
    (buildJWEHeader emptyCfg).crit = none :=
  header_fallback_defaults emptyCfg rfl rfl rfl rfl rfl rfl rfl rfl rfl
    rfl rfl rfl

/-- C10: with a JWK-shaped secret (an object carrying a kty property) and
no key-set resolver, the local verification key is left undefined, so
verify returns the false sentinel for every input — including tokens
produced by the same configuration's own sign, which imports the JWK only
on the signing path; the round-trip property does not hold under this
configuration. -/
theorem P0.jwk_secret_never_verifies (cfg : JwtConfig) (jid : Nat)
    (hsec : cfg.secret = some (.sjwk jid)) (hjwks : cfg.jwks = none) :
    P0.key cfg = none ∧
    (∀ inp opts now, P0.verify cfg inp opts now = none) ∧
    (∀ si signTime verifyTime, ∃ t,
      P0.sign cfg si signTime = some t ∧
      P0.verify cfg (some (.wellFormed t)) none verifyTime = none) := by
  have hkey : P0.key cfg = none := by
    simp [P0.key, hsec, SecretVal.truthy]
  have hver : ∀ inp opts now, P0.verify cfg inp opts now = none := by
    intro inp opts now
    cases inp with
    | none => rfl
    | some ts =>
      cases ts with
      | emptyStr => rfl
      | malformedStr => rfl
      | wellFormed t => simp [P0.verify, hjwks, hkey, jwtVerifyCore]
  refine ⟨hkey, hver, ?_⟩
  intro si signTime verifyTime
  refine ⟨⟨(buildJWSHeader cfg).alg, P0.signPayload cfg si signTime,
    .importedJWK jid (buildJWSHeader cfg).alg⟩, ?_, hver _ _ _⟩
  simp [P0.sign, hkey, P0.getKeyForAlg, hsec]

/-- Witness for C10 at the concrete JWK-secret configuration. -/
theorem P0.jwk_secret_never_verifies_witness :
    P0.key cfgJwkSecret = none ∧
    (∀ inp opts now, P0.verify cfgJwkSecret inp opts now = none) ∧
    (∀ si signTime verifyTime, ∃ t,
      P0.sign cfgJwkSecret si signTime = some t ∧
      P0.verify cfgJwkSecret (some (.wellFormed t)) none verifyTime
        = none) :=
  P0.jwk_secret_never_verifies cfgJwkSecret 7 rfl rfl
